import Mathlib

/-!
Verification development for the Eureka-AI backend (src/server.js): a
single-endpoint Express server that augments a user prompt with a static
knowledge base and a fixed instruction template and forwards the result to an
external text-generation service.

We shallowly embed, from the source:
  * JSON values and the serialization performed by JSON.stringify(v, null, 2);
  * JavaScript request-body values (truthiness and template-literal string
    coercion, which the handler applies to req.body.prompt);
  * the fixed configuration constants (model name, sampling parameters, the
    instruction template) and the augmented-prompt construction;
  * the POST /generate handler as a function of the knowledge base, the
    request prompt value, and the upstream service behaviour;
  * the startup sequence of the module (API-key check, client construction,
    knowledge-base loading, listening).
-/

namespace Eureka

/-- JSON values, as produced by JSON.parse on the knowledge-base file and as
used for response bodies.  Numbers are modelled by the integer fragment
(the claims under study treat the knowledge base as an uninterpreted value,
so float formatting is not load-bearing). -/
inductive Json where
  | null : Json
  | bool (b : Bool) : Json
  | num (n : Int) : Json
  | str (s : String) : Json
  | arr (elems : List Json) : Json
  | obj (fields : List (String × Json)) : Json

/-- Lower-case hexadecimal digit, used by the \u00XX escapes of
JSON.stringify. -/
def hexDigit (n : Nat) : Char :=
  if n < 10 then Char.ofNat (48 + n) else Char.ofNat (87 + n)

/-- Escaping of one character inside a JSON string literal, following the
QuoteJSONString algorithm used by JSON.stringify. -/
def escapeJsonChar (c : Char) : String :=
  if c = '\"' then "\\\""
  else if c = '\\' then "\\\\"
  else if c = '\x08' then "\\b"
  else if c = '\x0c' then "\\f"
  else if c = '\n' then "\\n"
  else if c = '\x0d' then "\\r"
  else if c = '\t' then "\\t"
  else if c.toNat < 32 then
    "\\u00" ++ String.singleton (hexDigit (c.toNat / 16))
      ++ String.singleton (hexDigit (c.toNat % 16))
  else String.singleton c

/-- JSON string literal with quotes and escapes, as written by
JSON.stringify. -/
def jsonQuote (s : String) : String :=
  "\"" ++ String.join (s.data.map escapeJsonChar) ++ "\""

mutual

/-- Serialization of a JSON value with the two-space indentation of
JSON.stringify(v, null, 2); `indent` is the indentation accumulated so far. -/
def serialize (indent : String) : Json → String
  | .null => "null"
  | .bool b => if b then "true" else "false"
  | .num n => toString n
  | .str s => jsonQuote s
  | .arr [] => "[]"
  | .arr (x :: xs) =>
      "[\n" ++ (indent ++ "  ") ++ serializeElems (indent ++ "  ") x xs
        ++ "\n" ++ indent ++ "]"
  | .obj [] => "\x7b\x7d"
  | .obj (f :: fs) =>
      "\x7b\n" ++ (indent ++ "  ") ++ serializeFields (indent ++ "  ") f fs
        ++ "\n" ++ indent ++ "\x7d"
termination_by j => sizeOf j
decreasing_by all_goals (simp_wf; try omega)

/-- Comma-and-newline separated serialization of the elements of a non-empty
JSON array at indentation `ind`. -/
def serializeElems (ind : String) : Json → List Json → String
  | x, [] => serialize ind x
  | x, y :: ys => serialize ind x ++ ",\n" ++ ind ++ serializeElems ind y ys
termination_by x xs => sizeOf x + sizeOf xs
decreasing_by all_goals (simp_wf; try omega)

/-- Comma-and-newline separated serialization of the members of a non-empty
JSON object at indentation `ind`. -/
def serializeFields (ind : String) : (String × Json) → List (String × Json) → String
  | (k, v), [] => jsonQuote k ++ ": " ++ serialize ind v
  | (k, v), f :: fs =>
      jsonQuote k ++ ": " ++ serialize ind v ++ ",\n" ++ ind
        ++ serializeFields ind f fs
termination_by f fs => sizeOf f + sizeOf fs
decreasing_by all_goals (simp_wf; try omega)

end

/-- JSON.stringify(value, null, 2), as invoked by the handler on the
knowledge base (src/server.js line 127). -/
def jsonStringify2 (j : Json) : String := serialize "" j

/-- JavaScript values that can appear as the `prompt` field of the parsed
request body (express.json()): absent (`undefined`), `null`, booleans,
numbers (integer fragment; NaN is not represented), strings, arrays and
objects. -/
inductive JsValue where
  | undefined : JsValue
  | null : JsValue
  | bool (b : Bool) : JsValue
  | num (n : Int) : JsValue
  | str (s : String) : JsValue
  | arr (elems : List JsValue) : JsValue
  | obj (fields : List (String × JsValue)) : JsValue

/-- JavaScript truthiness, as tested by `if (!userPrompt)` on line 115:
undefined, null, false, 0 and "" are falsy; every other value (including any
array or object) is truthy. -/
def JsValue.truthy : JsValue → Bool
  | .undefined => false
  | .null => false
  | .bool b => b
  | .num n => n != 0
  | .str s => s ≠ ""
  | .arr _ => true
  | .obj _ => true

mutual

/-- JavaScript ToString coercion, as applied by template-literal
interpolation to a non-string `userPrompt` (first at the console.log on
line 119, then inside the augmented prompt): numbers print in decimal,
arrays join their elements with commas, and a plain object prints as
[object Object] — unless it has an own `toString` member.  A JSON-parsed
value is never callable, so an own `toString` member shadows the inherited
callable Object.prototype.toString; OrdinaryToPrimitive then skips it,
Object.prototype.valueOf returns the object itself, and ToString throws a
TypeError, modelled as `.error ()`. -/
def JsValue.toJsString : JsValue → Except Unit String
  | .undefined => .ok "undefined"
  | .null => .ok "null"
  | .bool b => .ok (if b then "true" else "false")
  | .num n => .ok (toString n)
  | .str s => .ok s
  | .arr xs => joinElems xs
  | .obj fields =>
      if fields.any (fun f => f.1 == "toString") then .error ()
      else .ok "[object Object]"

/-- Array.prototype.toString, i.e. join with ",": elements joined by ",",
with undefined and null elements rendered as the empty string; a TypeError
thrown while coercing any element propagates out of the join. -/
def joinElems : List JsValue → Except Unit String
  | [] => .ok ""
  | [x] => elemStr x
  | x :: y :: ys =>
      match elemStr x, joinElems (y :: ys) with
      | .ok s, .ok t => .ok (s ++ "," ++ t)
      | .error _, _ => .error ()
      | _, .error _ => .error ()

/-- Rendering of one array element inside Array.prototype.join; an element
object with an own `toString` member makes the coercion throw, like at top
level. -/
def elemStr : JsValue → Except Unit String
  | .undefined => .ok ""
  | .null => .ok ""
  | .bool b => .ok (if b then "true" else "false")
  | .num n => .ok (toString n)
  | .str s => .ok s
  | .arr xs => joinElems xs
  | .obj fields =>
      if fields.any (fun f => f.1 == "toString") then .error ()
      else .ok "[object Object]"

end

/-- The fixed model identifier, src/server.js line 11:
`const MODEL_NAME = "gpt-4o"`. -/
def MODEL_NAME : String := "gpt-4o"

/-- The fixed instruction/style template, src/server.js lines 35-109
(`const systemPrompt`), transcribed verbatim from the template literal. -/
def systemPrompt : String :=
  "You are an expert SimPhy script generator. Your task is to convert a user\x27s prompt into a complete, runnable JavaScript script using the provided SimPhy API knowledge base.\n"
  ++ "\n"
  ++ "RULES:\n"
  ++ "1.  **Analyze the Prompt**: Identify all objects, their properties, relationships, and fields from the user\x27s request.\n"
  ++ "2.  **Use the Knowledge Base**: You MUST use the provided API summary and concepts to map user ideas to the correct API functions. Do not invent functions.\n"
  ++ "3.  **Handle Fields Correctly**: This is a critical rule. Fields (like \"electric field\") are pre-existing in the simulation UI. You CANNOT create new fields from a script. The only way to interact with them is to get them using \x27World.getField(\"FieldName\")\x27. Your generated code MUST always check if the returned field is null and print a helpful error message to the user if it is not found.\n"
  ++ "4.  **Handle Static Bodies**: If the user mentions \"ground\", \"floor\", or a \"wall\", create a large rectangle and make it STATIC by using \x27.setMassType(1)\x27. This is the only correct way.\n"
  ++ "5.  **Make Smart Assumptions**:\n"
  ++ "    * Gravity MUST ALWAYS be set to (0, -9.8), unless the user explicitly asks for zero gravity.\n"
  ++ "    * If the prompt implies a ground is needed, create a static ground rectangle automatically.\n"
  ++ "    * Choose reasonable, non-overlapping positions and sizes for objects.\n"
  ++ "6.  **Output Format**: Your final output MUST be only the JavaScript code, with helpful comments explaining each step. Do not include any other text or explanations outside of the code comments.\n"
  ++ "\n"
  ++ "--- PERFECT EXAMPLES ---\n"
  ++ "\n"
  ++ "## EXAMPLE 1: Bodies and Joints\n"
  ++ "User Request: \"a block with two wheels is attached to a static wall with a spring\"\n"
  ++ "Correct Code:\n"
  ++ "/**\n"
  ++ " * Wheeled Block with Spring Simulation\n"
  ++ " */\n"
  ++ "World.clearAll();\n"
  ++ "World.setGravity(0, -9.8);\n"
  ++ "var ground = World.addRectangle(100, 2);\n"
  ++ "ground.setPosition(0, -1);\n"
  ++ "ground.setMassType(1); // Make static\n"
  ++ "var wall = World.addRectangle(2, 100);\n"
  ++ "wall.setPosition(10, 49);\n"
  ++ "wall.setMassType(1); // Make static\n"
  ++ "var block = World.addRectangle(4, 2);\n"
  ++ "block.setPosition(2, 1.5);\n"
  ++ "block.setMass(15);\n"
  ++ "var wheel1 = World.addDisc(0.75);\n"
  ++ "wheel1.setPosition(1, 0.75);\n"
  ++ "wheel1.setMass(2);\n"
  ++ "var wheel2 = World.addDisc(0.75);\n"
  ++ "wheel2.setPosition(3, 0.75);\n"
  ++ "wheel2.setMass(2);\n"
  ++ "World.addRevoluteJoint(block, wheel1, new Vector2(1, 0.75));\n"
  ++ "World.addRevoluteJoint(block, wheel2, new Vector2(3, 0.75));\n"
  ++ "var springJoint = World.addSpringJoint(block, wall, new Vector2(4, 1.5), new Vector2(9, 1.5), 5.0, 0.5);\n"
  ++ "springJoint.setNaturalLength(4.0);\n"
  ++ "print(\"Simulation is ready!\");\n"
  ++ "\n"
  ++ "## EXAMPLE 2: Fields and Charged Particles\n"
  ++ "User Request: \"a positively charged red ball in a constant electric field named \x27E\x27 that points down.\"\n"
  ++ "Correct Code:\n"
  ++ "/**\n"
  ++ " * Charged Particle in an Electric Field\n"
  ++ " */\n"
  ++ "World.clearAll();\n"
  ++ "World.setGravity(0, -9.8);\n"
  ++ "\n"
  ++ "// Get the pre-existing Electric Field named \x27E\x27. This must be added in the UI first.\n"
  ++ "var E = World.getField(\"E\");\n"
  ++ "\n"
  ++ "// Check if the field exists before trying to modify it\n"
  ++ "if (E != null) \x7b\n"
  ++ "    // Set it to a constant downward value\n"
  ++ "    E.setIntensity(new Vector2(0, -50));\n"
  ++ "    E.setEnabled(true);\n"
  ++ "    print(\"Electric field \x27E\x27 configured successfully.\");\n"
  ++ "\x7d else \x7b\n"
  ++ "    print(\"ERROR: Electric field named \x27E\x27 not found. Please add it in the SimPhy UI first.\");\n"
  ++ "\x7d\n"
  ++ "\n"
  ++ "// Create the charged particle\n"
  ++ "var ball = World.addDisc(0.5);\n"
  ++ "ball.setPosition(0, 8);\n"
  ++ "ball.setMass(1);\n"
  ++ "ball.setCharge(2); // Set a positive charge\n"
  ++ "ball.setFillColor(\"red\");\n"
  ++ "\n"
  ++ "--- END OF EXAMPLES ---\n"

/-- The part of the augmented-prompt template literal (src/server.js lines
124-133) before the interpolated JSON.stringify of the knowledge base. -/
def apHead : String :=
  "\n      ---\n      HERE IS THE KNOWLEDGE BASE. USE ONLY THESE FUNCTIONS AND CONCEPTS:\n      "

/-- The part of the augmented-prompt template literal between the serialized
knowledge base and the interpolated user prompt; it ends with the opening
double quote wrapped around the prompt. -/
def apMid : String :=
  "\n      ---\n      HERE IS THE USER\x27S REQUEST:\n      \""

/-- The part of the augmented-prompt template literal after the interpolated
user prompt; it starts with the closing double quote wrapped around the
prompt. -/
def apTail : String :=
  "\"\n      ---\n      GENERATE THE SCRIPT:\n    "

/-- The augmented prompt built by the handler (src/server.js lines 124-133):
the template literal interpolating JSON.stringify(knowledgeBase, null, 2)
and the user prompt (already coerced to a string). -/
def augmentedPrompt (kb : Json) (promptText : String) : String :=
  apHead ++ jsonStringify2 kb ++ apMid ++ promptText ++ apTail

/-- The sampling parameters of src/server.js lines 135-140
(`const generationConfig`).  The temperature is the rational 0.2. -/
structure GenerationConfig where
  temperature : Rat
  topK : Nat
  topP : Nat
  maxOutputTokens : Nat

/-- `generationConfig` with temperature 0.2, topK 1, topP 1 and
maxOutputTokens 4096, from src/server.js lines 135-140. -/
def generationConfig : GenerationConfig :=
  ⟨2 / 10, 1, 1, 4096⟩

/-- One chat turn sent to the external service: a role and a text part. -/
structure Turn where
  role : String
  text : String

/-- One outbound call to the external text-generation service, as assembled
by src/server.js lines 122-147: the model identifier passed to
getGenerativeModel, the generation config and history passed to startChat,
and the message passed to sendMessage. -/
structure OutboundCall where
  modelName : String
  config : GenerationConfig
  history : List Turn
  message : String

/-- The request payload carried by an outbound call: the history turns
followed by the sendMessage text as a final user turn. -/
def OutboundCall.turns (c : OutboundCall) : List Turn :=
  c.history ++ [⟨"user", c.message⟩]

/-- The single outbound call the handler makes for a truthy prompt
(src/server.js lines 122-147): model MODEL_NAME, the fixed generationConfig,
a history holding the systemPrompt as one user turn, and the augmented
prompt as the sent message. -/
def mkOutboundCall (kb : Json) (promptText : String) : OutboundCall :=
  ⟨MODEL_NAME, generationConfig, [⟨"user", systemPrompt⟩],
    augmentedPrompt kb promptText⟩

/-- Response of one invocation of the POST /generate handler: the HTTP
status and JSON body sent to the client, the outbound calls made to the
external service during the invocation, and the value of the shared
`knowledgeBase` binding after the invocation. -/
structure HandlerResult where
  status : Nat
  body : Json
  calls : List OutboundCall
  kbAfter : Json

/-- Outcome of one invocation of the POST /generate handler: either a
response was sent, or an error escaped the handler (the async function
rejected) before any response; the uncaught case still records the
outbound calls made before the throw and the shared binding, which the
handler never assigns. -/
inductive HandlerOutcome where
  | responded (r : HandlerResult) : HandlerOutcome
  | uncaught (calls : List OutboundCall) (kbAfter : Json) : HandlerOutcome

/-- The outbound calls made during an invocation, in either outcome. -/
def HandlerOutcome.calls : HandlerOutcome → List OutboundCall
  | .responded r => r.calls
  | .uncaught cs _ => cs

/-- The value of the shared `knowledgeBase` binding after an invocation,
in either outcome. -/
def HandlerOutcome.kbAfter : HandlerOutcome → Json
  | .responded r => r.kbAfter
  | .uncaught _ kb => kb

/-- The POST /generate handler, src/server.js lines 112-158, as a function
of the loaded knowledge base, the `prompt` field of the parsed request body,
and the behaviour of the external service (`upstream c` is the outcome of
awaiting sendMessage for call `c`: `.ok t` means the response text is `t`,
`.error ()` means the await threw).  A falsy prompt is rejected with 400
before any call.  Otherwise the template literal of the console.log on line
119 coerces the prompt with ToString; that line precedes the try block
(line 121), so a TypeError thrown there escapes the handler with no
response and no outbound call.  When the coercion succeeds, one call is
made and the try/catch maps its outcome to a 200 script response or a 500
error response. -/
def handleGenerate (kb : Json) (reqPrompt : JsValue)
    (upstream : OutboundCall → Except Unit String) : HandlerOutcome :=
  if reqPrompt.truthy = false then
    .responded ⟨400, Json.obj [("error", Json.str "Prompt is required")], [], kb⟩
  else
    match reqPrompt.toJsString with
    | .error _ => .uncaught [] kb
    | .ok promptText =>
      let call := mkOutboundCall kb promptText
      match upstream call with
      | .ok text =>
          .responded ⟨200, Json.obj [("script", Json.str text)], [call], kb⟩
      | .error _ =>
          .responded
            ⟨500, Json.obj [("error", Json.str "Failed to generate script")],
              [call], kb⟩

/-- State of the knowledge-base file `knowledge_base.json` at startup:
`fs.readFileSync` throws, JSON.parse throws, or the file parses to a JSON
value. -/
inductive FileState where
  | unreadable : FileState
  | unparseable : FileState
  | content (j : Json) : FileState

/-- Outcome of evaluating the server module at process start: an uncaught
exception (message), an explicit process.exit (code), or reaching
app.listen with a loaded knowledge base. -/
inductive StartupOutcome where
  | thrown (msg : String) : StartupOutcome
  | exited (code : Nat) : StartupOutcome
  | listening (kb : Json) : StartupOutcome

/-- The knowledge-base loading block, src/server.js lines 24-32: read the
file, parse it, and on any failure call process.exit(1). -/
def loadKnowledgeBase : FileState → Except Nat Json
  | .unreadable => .error 1
  | .unparseable => .error 1
  | .content j => .ok j

/-- The startup continuation from line 24 on: load the knowledge base
(exit 1 on failure) and, the rest of the module being declarations, reach
app.listen (line 161) with the parsed value held in memory. -/
def startupFromLoader (kbFile : FileState) : StartupOutcome :=
  match loadKnowledgeBase kbFile with
  | .error c => .exited c
  | .ok j => .listening j

/-- Evaluation of the server module at process start (src/server.js lines
1-163).  `apiKey` is `process.env.OPENAI_API_KEY` (`none` when unset).
Line 18 throws when the key is falsy (unset or the empty string).  Line 21
then evaluates `new OpenAI(...)`; the identifier `OpenAI`
is never imported or defined (line 5 imports only GoogleGenerativeAI), so
this line throws a ReferenceError in every run, and the continuation
`startupFromLoader` (lines 24-163) is never reached. -/
def startup (apiKey : Option String) (_kbFile : FileState) : StartupOutcome :=
  if apiKey.getD "" = "" then
    .thrown "OPENAI_API_KEY is not set. Please create a .env file and add your key."
  else
    .thrown "ReferenceError: OpenAI is not defined"

/-- Whether a startup outcome reached app.listen (accepted connections). -/
def StartupOutcome.isListening : StartupOutcome → Bool
  | .listening _ => true
  | _ => false

/-- Number of double-quote characters in a string. -/
def quoteCount (s : String) : Nat := s.data.count '\"'

/-- A small sample knowledge base used for concrete evaluations. -/
def kbSample : Json := Json.obj [("api", Json.str "World.addDisc")]

/-- An upstream service that always answers with a fixed script. -/
def upOk : OutboundCall → Except Unit String :=
  fun _ => .ok "World.clearAll();"

/-- An upstream service whose sendMessage always throws. -/
def upFail : OutboundCall → Except Unit String :=
  fun _ => .error ()

/- ## Helper lemmas -/

/-- The handler never mutates the shared knowledge-base binding, in any
outcome. -/
theorem handleGenerate_kbAfter (kb : Json) (v : JsValue)
    (up : OutboundCall → Except Unit String) :
    (handleGenerate kb v up).kbAfter = kb := by
  unfold handleGenerate
  cases hb : v.truthy
  · simp [hb, HandlerOutcome.kbAfter]
  · cases hjs : v.toJsString with
    | error e => simp [hb, hjs, HandlerOutcome.kbAfter]
    | ok s =>
      cases hup : up (mkOutboundCall kb s) with
      | ok t => simp [hb, hjs, hup, HandlerOutcome.kbAfter]
      | error e => simp [hb, hjs, hup, HandlerOutcome.kbAfter]

/-- The outbound calls of one handler invocation are a function of the
knowledge base and the prompt alone: one call for a truthy prompt whose
ToString coercion succeeds, none otherwise, independently of the upstream
behaviour. -/
theorem handleGenerate_calls_eq (kb : Json) (v : JsValue)
    (up : OutboundCall → Except Unit String) :
    (handleGenerate kb v up).calls =
      if v.truthy then
        (match v.toJsString with
         | .ok s => [mkOutboundCall kb s]
         | .error _ => [])
      else [] := by
  unfold handleGenerate
  cases hb : v.truthy
  · simp [hb, HandlerOutcome.calls]
  · cases hjs : v.toJsString with
    | error e => simp [hb, hjs, HandlerOutcome.calls]
    | ok s =>
      cases hup : up (mkOutboundCall kb s) with
      | ok t => simp [hb, hjs, hup, HandlerOutcome.calls]
      | error e => simp [hb, hjs, hup, HandlerOutcome.calls]

/-- Quote counting distributes over string append. -/
theorem quoteCount_append (s t : String) :
    quoteCount (s ++ t) = quoteCount s + quoteCount t := by
  simp [quoteCount, String.data_append, List.count_append]

/- ## Claims -/

/-- C1 (counterexample): on the spec\x27s own example prompt, the handler
makes one outbound call, but that call\x27s payload carries two turns (the
fixed template as a history turn, then the knowledge base plus prompt as
the sent message), not a single turn concatenating all three parts. -/
theorem generate_payload_not_single_turn :
    ((handleGenerate kbSample (JsValue.str "a ball falling under gravity")
        upOk).calls.map (fun c => c.turns.length)) = [2] := rfl

/-- C1 (amended): for every truthy prompt that coerces to the text s
(every well-formed prompt is a non-empty string, where the coercion is the
identity) the handler makes exactly one outbound call; its payload
consists of two user turns, the first being exactly the fixed instruction
template and the second concatenating the knowledge base serialized by
JSON.stringify(kb, null, 2) with the literal prompt text; and the call
uses the fixed model identifier "gpt-4o" and the fixed sampling parameters
temperature 0.2, topK 1, topP 1, maxOutputTokens 4096. -/
theorem generate_single_call_two_turn_payload (kb : Json) (v : JsValue)
    (up : OutboundCall → Except Unit String) (s : String)
    (hv : v.truthy = true) (hs : v.toJsString = .ok s) :
    (handleGenerate kb v up).calls = [mkOutboundCall kb s]
    ∧ (mkOutboundCall kb s).turns =
        [⟨"user", systemPrompt⟩,
         ⟨"user", apHead ++ jsonStringify2 kb ++ apMid ++ s ++ apTail⟩]
    ∧ (mkOutboundCall kb s).modelName = "gpt-4o"
    ∧ (mkOutboundCall kb s).config =
        ⟨2 / 10, 1, 1, 4096⟩ := by
  refine ⟨?_, rfl, rfl, rfl⟩
  rw [handleGenerate_calls_eq, hv, if_pos rfl, hs]

/-- Witness for the amended C1 at a concrete prompt and upstream. -/
theorem generate_single_call_two_turn_payload_witness :
    (JsValue.str "a ball falling under gravity").truthy = true
    ∧ (handleGenerate kbSample (JsValue.str "a ball falling under gravity")
        upOk).calls =
      [mkOutboundCall kbSample "a ball falling under gravity"] :=
  ⟨rfl,
    (generate_single_call_two_turn_payload kbSample
      (JsValue.str "a ball falling under gravity") upOk
      "a ball falling under gravity" rfl rfl).1⟩

/-- C2: a request whose prompt field is absent (undefined) or the empty
string is answered with status 400 and body
\x7b "error": "Prompt is required" \x7d, and no outbound call is made. -/
theorem missing_prompt_rejected (kb : Json) (v : JsValue)
    (up : OutboundCall → Except Unit String)
    (h : v = JsValue.undefined ∨ v = JsValue.str "") :
    handleGenerate kb v up =
      .responded
        ⟨400, Json.obj [("error", Json.str "Prompt is required")], [], kb⟩ := by
  rcases h with h | h <;> subst h <;> rfl

/-- Witness for C2 with an absent prompt field. -/
theorem missing_prompt_rejected_witness :
    handleGenerate kbSample JsValue.undefined upOk =
      .responded
        ⟨400, Json.obj [("error", Json.str "Prompt is required")], [],
          kbSample⟩ :=
  missing_prompt_rejected kbSample JsValue.undefined upOk (Or.inl rfl)

/-- C3: when the upstream call succeeds with text t, the handler responds
with status 200 and body \x7b "script": t \x7d, passing t through
unmodified. -/
theorem success_returns_upstream_text_verbatim (kb : Json) (v : JsValue)
    (up : OutboundCall → Except Unit String) (s t : String)
    (hv : v.truthy = true) (hs : v.toJsString = .ok s)
    (ht : up (mkOutboundCall kb s) = .ok t) :
    handleGenerate kb v up =
      .responded
        ⟨200, Json.obj [("script", Json.str t)],
          [mkOutboundCall kb s], kb⟩ := by
  unfold handleGenerate
  rw [hv]
  simp only [Bool.true_eq_false, if_false, hs, ht]

/-- Witness for C3 at a concrete prompt and a concrete upstream answer. -/
theorem success_returns_upstream_text_verbatim_witness :
    handleGenerate kbSample (JsValue.str "a ball falling under gravity")
        upOk =
      .responded
        ⟨200, Json.obj [("script", Json.str "World.clearAll();")],
          [mkOutboundCall kbSample "a ball falling under gravity"],
          kbSample⟩ :=
  success_returns_upstream_text_verbatim kbSample
    (JsValue.str "a ball falling under gravity") upOk
    "a ball falling under gravity" "World.clearAll();" rfl rfl rfl

/-- C4: when the upstream call fails, the handler responds with status 500
and body \x7b "error": "Failed to generate script" \x7d, makes exactly one
outbound call (no retry), and still returns a well-defined response with
the shared state intact (the process keeps serving). -/
theorem upstream_failure_returns_500_no_retry (kb : Json) (v : JsValue)
    (up : OutboundCall → Except Unit String) (s : String)
    (hv : v.truthy = true) (hs : v.toJsString = .ok s)
    (he : up (mkOutboundCall kb s) = .error ()) :
    handleGenerate kb v up =
      .responded
        ⟨500, Json.obj [("error", Json.str "Failed to generate script")],
          [mkOutboundCall kb s], kb⟩ := by
  unfold handleGenerate
  rw [hv]
  simp only [Bool.true_eq_false, if_false, hs, he]

/-- Witness for C4 with an always-failing upstream. -/
theorem upstream_failure_returns_500_no_retry_witness :
    handleGenerate kbSample (JsValue.str "a ball falling under gravity")
        upFail =
      .responded
        ⟨500, Json.obj [("error", Json.str "Failed to generate script")],
          [mkOutboundCall kbSample "a ball falling under gravity"],
          kbSample⟩ :=
  upstream_failure_returns_500_no_retry kbSample
    (JsValue.str "a ball falling under gravity") upFail
    "a ball falling under gravity" rfl rfl rfl

/-- C5: the loader block itself exits with code 1 when the file is
unreadable or unparseable and would reach listening with the parsed value
otherwise; but module evaluation throws at the undefined OpenAI reference
before the loader runs, so in every run — even with a valid credential and
a valid knowledge-base file — startup terminates before accepting
connections and the parsed value is never held by a serving process. -/
theorem startup_never_holds_knowledge_base :
    startup (some "sk-test") (FileState.content kbSample) =
      StartupOutcome.thrown "ReferenceError: OpenAI is not defined"
    ∧ (∀ key f, (startup key f).isListening = false)
    ∧ loadKnowledgeBase FileState.unreadable = Except.error 1
    ∧ loadKnowledgeBase FileState.unparseable = Except.error 1
    ∧ (∀ j, loadKnowledgeBase (FileState.content j) = Except.ok j)
    ∧ startupFromLoader FileState.unreadable = StartupOutcome.exited 1
    ∧ startupFromLoader FileState.unparseable = StartupOutcome.exited 1
    ∧ (∀ j, startupFromLoader (FileState.content j) =
        StartupOutcome.listening j) := by
  refine ⟨rfl, ?_, rfl, rfl, fun j => rfl, rfl, rfl, fun j => rfl⟩
  intro key f
  unfold startup
  split <;> rfl

/-- C6: with the OPENAI_API_KEY environment variable unset, module
evaluation throws at line 18 and the process never reaches app.listen. -/
theorem missing_api_key_aborts_startup (f : FileState) :
    startup none f =
      StartupOutcome.thrown
        "OPENAI_API_KEY is not set. Please create a .env file and add your key."
    ∧ (startup none f).isListening = false :=
  ⟨rfl, rfl⟩

/-- C7: handling a request leaves the shared knowledge-base binding
unchanged, the outbound calls are a function of the knowledge base and the
request\x27s own prompt alone (independent of the upstream behaviour), and
two invocations with the same prompt — whatever the other is doing —
construct identical payloads. -/
theorem payload_depends_only_on_prompt_and_kb (kb : Json) (v w : JsValue)
    (up up' : OutboundCall → Except Unit String)
    (htr : v.truthy = w.truthy) (hs : v.toJsString = w.toJsString) :
    (handleGenerate kb v up).kbAfter = kb
    ∧ (handleGenerate kb v up).calls =
        (if v.truthy then
          (match v.toJsString with
           | .ok s => [mkOutboundCall kb s]
           | .error _ => [])
         else [])
    ∧ (handleGenerate kb v up).calls = (handleGenerate kb w up').calls := by
  refine ⟨handleGenerate_kbAfter kb v up, handleGenerate_calls_eq kb v up, ?_⟩
  rw [handleGenerate_calls_eq, handleGenerate_calls_eq, htr, hs]

/-- Witness for C7: the same prompt against two different upstream
behaviours yields the same single payload, with the state intact. -/
theorem payload_depends_only_on_prompt_and_kb_witness :
    (handleGenerate kbSample (JsValue.str "pendulum") upOk).kbAfter = kbSample
    ∧ (handleGenerate kbSample (JsValue.str "pendulum") upOk).calls =
        (handleGenerate kbSample (JsValue.str "pendulum") upFail).calls :=
  have h := payload_depends_only_on_prompt_and_kb kbSample
    (JsValue.str "pendulum") (JsValue.str "pendulum") upOk upFail rfl rfl
  ⟨h.1, h.2.2⟩

/-- C8: whenever the credential check passes, module evaluation still
throws at line 21, where the client is constructed from the identifier
OpenAI that is never imported or defined; hence no run ever reaches
app.listen and the endpoint is never reachable. -/
theorem startup_always_throws_before_listening (key : Option String)
    (f : FileState) (hk : key.getD "" ≠ "") :
    startup key f =
      StartupOutcome.thrown "ReferenceError: OpenAI is not defined"
    ∧ ∀ k g, (startup k g).isListening = false := by
  constructor
  · unfold startup
    rw [if_neg hk]
  · intro k g
    unfold startup
    split <;> rfl

/-- Witness for C8 with a present, non-empty credential and a valid
knowledge-base file. -/
theorem startup_always_throws_before_listening_witness :
    (some "sk-test" : Option String).getD "" ≠ ""
    ∧ startup (some "sk-test") (FileState.content kbSample) =
        StartupOutcome.thrown "ReferenceError: OpenAI is not defined" :=
  ⟨by decide,
    (startup_always_throws_before_listening (some "sk-test")
      (FileState.content kbSample) (by decide)).1⟩

/-- C9 (counterexample): the truthy non-string object with an own toString
member (request body field value from the JSON text with key toString and
value "x") is NOT accepted and interpolated: its ToString coercion throws
a TypeError at the console.log on line 119, outside the try, so the
handler rejects with no response and makes no outbound call. -/
theorem truthy_object_coercion_throws_no_call :
    (JsValue.obj [("toString", JsValue.str "x")]).truthy = true
    ∧ (JsValue.obj [("toString", JsValue.str "x")]).toJsString = .error ()
    ∧ handleGenerate kbSample (JsValue.obj [("toString", JsValue.str "x")])
        upOk = .uncaught [] kbSample :=
  ⟨rfl, rfl, rfl⟩

/-- C9 (amended): the prompt check is a JavaScript falsiness test: every
falsy value (absent, null, false, 0, "") is answered with the 400 error
body and no outbound call; every truthy value whose ToString coercion
succeeds — including non-string numbers, arrays of coercible elements, and
objects without an own toString member — is accepted, coerced, and
interpolated into the single outbound payload without type validation; but
a truthy object carrying an own toString member makes the coercion throw
at the console.log on line 119, outside the try, so such a prompt yields
no response and no outbound call. -/
theorem falsy_prompt_rejected_truthy_interpolated :
    (∀ (kb : Json) (up : OutboundCall → Except Unit String) (v : JsValue),
        v.truthy = false →
        handleGenerate kb v up =
          .responded
            ⟨400, Json.obj [("error", Json.str "Prompt is required")], [],
              kb⟩)
    ∧ (JsValue.undefined.truthy = false
       ∧ JsValue.null.truthy = false
       ∧ (JsValue.bool false).truthy = false
       ∧ (JsValue.num 0).truthy = false
       ∧ (JsValue.str "").truthy = false)
    ∧ (∀ n : Int, n ≠ 0 → (JsValue.num n).truthy = true)
    ∧ (∀ xs, (JsValue.arr xs).truthy = true)
    ∧ (∀ fs, (JsValue.obj fs).truthy = true)
    ∧ (∀ n : Int, (JsValue.num n).toJsString = .ok (toString n))
    ∧ (∀ fs, (fs.any (fun f => f.1 == "toString")) = false →
        (JsValue.obj fs).toJsString = .ok "[object Object]")
    ∧ (∀ (kb : Json) (up : OutboundCall → Except Unit String) (v : JsValue)
        (s : String),
        v.truthy = true → v.toJsString = .ok s →
        (handleGenerate kb v up).calls = [mkOutboundCall kb s])
    ∧ (∀ (kb : Json) (up : OutboundCall → Except Unit String) (v : JsValue),
        v.truthy = true → v.toJsString = .error () →
        handleGenerate kb v up = .uncaught [] kb) := by
  refine ⟨?_, ⟨rfl, rfl, rfl, rfl, rfl⟩, ?_, fun xs => rfl, fun fs => rfl,
    fun n => rfl, ?_, ?_, ?_⟩
  · intro kb up v hv
    unfold handleGenerate
    rw [hv]
    exact if_pos rfl
  · intro n hn
    simp [JsValue.truthy, hn]
  · intro fs hfs
    simp [JsValue.toJsString, hfs]
  · intro kb up v s hv hs
    rw [handleGenerate_calls_eq, hv, if_pos rfl, hs]
  · intro kb up v hv hjs
    unfold handleGenerate
    rw [hv]
    simp only [Bool.true_eq_false, if_false, hjs]

/-- Witness for the amended C9: null is rejected, the number 42 is
accepted and interpolated as the text 42, and an object with an own
toString member escapes the handler with no call. -/
theorem falsy_prompt_rejected_truthy_interpolated_witness :
    handleGenerate kbSample JsValue.null upOk =
      .responded
        ⟨400, Json.obj [("error", Json.str "Prompt is required")], [],
          kbSample⟩
    ∧ (handleGenerate kbSample (JsValue.num 42) upOk).calls =
        [mkOutboundCall kbSample "42"]
    ∧ handleGenerate kbSample
        (JsValue.obj [("valueOf", JsValue.num 1), ("toString", JsValue.null)])
        upOk = .uncaught [] kbSample :=
  ⟨falsy_prompt_rejected_truthy_interpolated.1 kbSample upOk JsValue.null rfl,
   falsy_prompt_rejected_truthy_interpolated.2.2.2.2.2.2.2.1 kbSample upOk
     (JsValue.num 42) "42" rfl rfl,
   falsy_prompt_rejected_truthy_interpolated.2.2.2.2.2.2.2.2 kbSample upOk
     (JsValue.obj [("valueOf", JsValue.num 1), ("toString", JsValue.null)])
     rfl rfl⟩

/-- C10: the outbound message embeds the knowledge base serialized with
two-space indentation and the prompt wrapped in double quotes with no
escaping: every double quote of the prompt reaches the message verbatim
(the quote count grows exactly by the prompt\x27s own quotes), and a prompt
carrying quotes or the payload\x27s delimiter text is inserted as is. -/
theorem augmented_prompt_unescaped_embedding :
    (∀ kb p, augmentedPrompt kb p =
        apHead ++ jsonStringify2 kb ++ apMid ++ p ++ apTail)
    ∧ (∀ kb p, quoteCount (augmentedPrompt kb p) =
        quoteCount (jsonStringify2 kb) + quoteCount p + 2)
    ∧ augmentedPrompt (Json.obj [])
        "say \"hello\"\n      ---\n      GENERATE THE SCRIPT:" =
      apHead ++ "\x7b\x7d" ++ apMid
        ++ "say \"hello\"\n      ---\n      GENERATE THE SCRIPT:" ++ apTail
    ∧ quoteCount "say \"hello\"\n      ---\n      GENERATE THE SCRIPT:" = 2 := by
  refine ⟨fun kb p => rfl, fun kb p => ?_, ?_, rfl⟩
  · have h0 : quoteCount apHead = 0 := rfl
    have h1 : quoteCount apMid = 1 := rfl
    have h2 : quoteCount apTail = 1 := rfl
    simp only [augmentedPrompt, quoteCount_append, h0, h1, h2]
    omega
  · show apHead ++ jsonStringify2 (Json.obj []) ++ apMid
        ++ "say \"hello\"\n      ---\n      GENERATE THE SCRIPT:" ++ apTail
      = apHead ++ "\x7b\x7d" ++ apMid
        ++ "say \"hello\"\n      ---\n      GENERATE THE SCRIPT:" ++ apTail
    have hkb : jsonStringify2 (Json.obj []) = "\x7b\x7d" := by
      unfold jsonStringify2 serialize
      rfl
    rw [hkb]

end Eureka
